import Mathlib

/-!
Shallow embedding of `src/lib/msal-common/src/cache/entities/AccountEntity.ts`.

Conventions for modelling JavaScript values:
* a field or claim that may be `undefined` is an `Option String` (`none` = undefined);
* `Array.prototype.join` renders an `undefined` element as the empty string;
* `x || ""` is `Option.getD x ""` (both `undefined` and `""` are falsy);
* string concatenation coerces `undefined` to the text "undefined" and `null` to "null";
* `String.prototype.toLowerCase` is modelled character-wise via `Char.toLower`.
-/

/-- Model of a JavaScript value that is `null`, `undefined`, or a string; used for
the `policy` argument of `createAccount`, whose guard is the strict test
`policy !== null` (line 141 of AccountEntity.ts). -/
inductive JSVal where
  | null
  | undefined
  | str (s : String)
deriving DecidableEq

/-- Coercion a JSVal undergoes when concatenated into a JavaScript string. -/
def jsValToString : JSVal → String
  | JSVal.null => "null"
  | JSVal.undefined => "undefined"
  | JSVal.str s => s

/-- Character-wise model of JavaScript `String.prototype.toLowerCase`. -/
def jsToLowerCase (s : String) : String := ⟨s.data.map Char.toLower⟩

/-- Rendering of one array element by `Array.prototype.join`: undefined becomes "". -/
def jsElemToString : Option String → String
  | none => ""
  | some s => s

/-- Model of JavaScript `Array.prototype.join` with a separator string. -/
def jsArrayJoin (sep : String) : List (Option String) → String
  | [] => ""
  | [x] => jsElemToString x
  | x :: y :: rest => jsElemToString x ++ sep ++ jsArrayJoin sep (y :: rest)

/-- Model of the JavaScript defaulting idiom `x || ""`. -/
def jsOrEmpty (x : Option String) : String := x.getD ""

/-- Modelled from the spec: the `Separators` enum of `utils/Constants.ts` is not under
`src/`. The cache-key separator "-" matches the schema comment in AccountEntity.ts
(`<home_account_id>-<environment>-<realm*>`). -/
def Separators.CACHE_KEY_SEPARATOR : String := "-"

/-- Modelled from the spec: the client-info separator ":" matches the spec sentence
`homeAccountId == uid + ":" + utid`. -/
def Separators.CLIENT_INFO_SEPARATOR : String := ":"

/-- Modelled from the spec: `CacheAccountType` of `utils/Constants.ts` is not under
`src/`; four distinct string tags, one per authority family (modern multi-tenant,
federation services, legacy consumer, generic). -/
def CacheAccountType.MSSTS_ACCOUNT_TYPE : String := "MSSTS"

def CacheAccountType.ADFS_ACCOUNT_TYPE : String := "ADFS"

def CacheAccountType.MSAV1_ACCOUNT_TYPE : String := "MSA"

def CacheAccountType.GENERIC_ACCOUNT_TYPE : String := "Generic"

/-- Modelled from the spec: `CacheType` of `utils/Constants.ts` is not under `src/`;
four distinct numeric cache-type tags. -/
def CacheType.ADFS : Nat := 1001

def CacheType.MSA : Nat := 1002

def CacheType.MSSTS : Nat := 1003

def CacheType.GENERIC : Nat := 1004

/-- Modelled from the spec: the Environment Alias Set of `utils/Constants.ts` is not
under `src/`; a fixed list of known-equivalent authority hosts, containing at least
"login.windows.net" and the preferred host "login.microsoftonline.com". -/
def EnvironmentAliases : List String :=
  ["login.microsoftonline.com", "login.windows.net"]

/-- Modelled from the spec: the preferred canonical cache host. -/
def PreferredCacheEnvironment : String := "login.microsoftonline.com"

/-- Decoded identity-token claims (external interface); a missing claim is `none`. -/
structure IdTokenClaims where
  tid : Option String := none
  oid : Option String := none
  sid : Option String := none
  preferred_username : Option String := none
  name : Option String := none
  sub : Option String := none
  upn : Option String := none
deriving DecidableEq

/-- Decoded identity token (external interface): exposes its claims. -/
structure IdToken where
  claims : IdTokenClaims
deriving DecidableEq

/-- Components of the authority's canonical URL (external interface). -/
structure UrlComponents where
  HostNameAndPort : String
deriving DecidableEq

/-- Authority descriptor (external interface). -/
structure Authority where
  canonicalAuthorityUrlComponents : UrlComponents
deriving DecidableEq

/-- Result of decoding a client-info blob: exposes `uid` and `utid`. -/
structure ClientInfo where
  uid : String
  utid : String
deriving DecidableEq

/-- The `AccountInfo` interface: the four fields exposed for external consumption. -/
structure AccountInfo where
  homeAccountId : Option String := none
  environment : Option String := none
  tenantId : Option String := none
  username : Option String := none
deriving DecidableEq

/-- The `AccountEntity` record. Every field starts out `undefined` (`none`) as in a
freshly constructed JavaScript object, and is assigned by the factory functions. -/
structure AccountEntity where
  homeAccountId : Option String := none
  environment : Option String := none
  realm : Option String := none
  localAccountId : Option String := none
  username : Option String := none
  authorityType : Option String := none
  name : Option String := none
  clientInfo : Option String := none
  lastModificationTime : Option String := none
  lastModificationApp : Option String := none
deriving DecidableEq

/-- Modelled from the spec: `StringUtils.isEmpty` of `utils/StringUtils.ts` is not
under `src/`; true when the value is undefined or the empty string. -/
def StringUtils.isEmpty (s : Option String) : Bool :=
  s.getD "" == ""

/-- Embeds `generateAccountId` (AccountEntity.ts lines 56-59):
join homeAccountId and environment with the cache-key separator, lower-cased. -/
def AccountEntity.generateAccountId (a : AccountEntity) : String :=
  let accountId : List (Option String) := [a.homeAccountId, a.environment]
  jsToLowerCase (jsArrayJoin Separators.CACHE_KEY_SEPARATOR accountId)

/-- Embeds the static `generateAccountCacheKey` (AccountEntity.ts lines 109-117):
join homeAccountId, environment (defaulted to ""), tenantId (defaulted to "") with
the cache-key separator, lower-cased. The username field is not read. -/
def AccountEntity.generateAccountCacheKey (accountInterface : AccountInfo) : String :=
  let accountKey : List (Option String) := [
    accountInterface.homeAccountId,
    some (jsOrEmpty accountInterface.environment),
    some (jsOrEmpty accountInterface.tenantId)]
  jsToLowerCase (jsArrayJoin Separators.CACHE_KEY_SEPARATOR accountKey)

/-- Embeds `generateAccountKey` (AccountEntity.ts lines 64-71): delegates to
`generateAccountCacheKey` on the record's own fields (realm as tenantId). -/
def AccountEntity.generateAccountKey (a : AccountEntity) : String :=
  AccountEntity.generateAccountCacheKey {
    homeAccountId := a.homeAccountId,
    environment := a.environment,
    tenantId := a.realm,
    username := a.username }

/-- Embeds `generateType` (AccountEntity.ts lines 76-91). The first component is the
returned value (`none` models the `null` return of the default branch); the second
component collects `console.log` diagnostics emitted along elaborating the call. -/
def AccountEntity.generateType (a : AccountEntity) : Option Nat × List String :=
  if a.authorityType = some CacheAccountType.ADFS_ACCOUNT_TYPE then
    (some CacheType.ADFS, [])
  else if a.authorityType = some CacheAccountType.MSAV1_ACCOUNT_TYPE then
    (some CacheType.MSA, [])
  else if a.authorityType = some CacheAccountType.MSSTS_ACCOUNT_TYPE then
    (some CacheType.MSSTS, [])
  else if a.authorityType = some CacheAccountType.GENERIC_ACCOUNT_TYPE then
    (some CacheType.GENERIC, [])
  else
    (none, ["Unexpected account type"])

/-- Embeds `getAccountInfo` (AccountEntity.ts lines 96-103). -/
def AccountEntity.getAccountInfo (a : AccountEntity) : AccountInfo :=
  { homeAccountId := a.homeAccountId,
    environment := a.environment,
    tenantId := a.realm,
    username := a.username }

/-- Embeds the static `createAccount` (AccountEntity.ts lines 126-164).
`buildClientInfo` stands for the imported `buildClientInfo` applied to the injected
crypto collaborator (`account/ClientInfo.ts` is not under `src/`; per the spec it
decodes the blob to `{uid, utid}` or signals a decode failure upward, which we model
with `Except`). The `idToken` parameter is an `Option` because callers may pass a
null/undefined token; line 151 of the source reads `idToken.claims.tid` before the
`if (idToken)` guard of line 153, which for a missing token throws a TypeError —
modelled as the `Except.error` in the `none` branch below. -/
def AccountEntity.createAccount (clientInfo : String) (authority : Authority)
    (idToken : Option IdToken) (policy : JSVal)
    (buildClientInfo : String → Except String ClientInfo) :
    Except String AccountEntity :=
  match buildClientInfo clientInfo with
  | Except.error e => Except.error e
  | Except.ok clientInfoObj =>
    let homeAccountId :=
      clientInfoObj.uid ++ Separators.CLIENT_INFO_SEPARATOR ++ clientInfoObj.utid
    let homeAccountIdWithPolicy :=
      if policy ≠ JSVal.null then
        homeAccountId ++ Separators.CACHE_KEY_SEPARATOR ++ jsValToString policy
      else homeAccountId
    let reqEnvironment := authority.canonicalAuthorityUrlComponents.HostNameAndPort
    let environment :=
      if EnvironmentAliases.contains reqEnvironment then PreferredCacheEnvironment
      else reqEnvironment
    match idToken with
    | none => Except.error "TypeError: cannot read claims of null idToken"
    | some t =>
      let localAccountId :=
        if !(StringUtils.isEmpty t.claims.oid) then t.claims.oid else t.claims.sid
      Except.ok {
        authorityType := some CacheAccountType.MSSTS_ACCOUNT_TYPE,
        clientInfo := some clientInfo,
        homeAccountId := some homeAccountIdWithPolicy,
        environment := some environment,
        realm := t.claims.tid,
        localAccountId := localAccountId,
        username := t.claims.preferred_username,
        name := t.claims.name }

/-- Embeds the static `createADFSAccount` (AccountEntity.ts lines 171-186). -/
def AccountEntity.createADFSAccount (authority : Authority) (idToken : IdToken) :
    AccountEntity :=
  { authorityType := some CacheAccountType.ADFS_ACCOUNT_TYPE,
    homeAccountId := idToken.claims.sub,
    environment := some authority.canonicalAuthorityUrlComponents.HostNameAndPort,
    username := idToken.claims.upn }

/-- A JavaScript string field holds a non-empty string: it is neither undefined
nor the empty string. -/
def optNonEmpty (x : Option String) : Prop := x.getD "" ≠ ""

instance (x : Option String) : Decidable (optNonEmpty x) := by
  unfold optNonEmpty
  infer_instance

theorem jsToLowerCase_append (a b : String) :
    jsToLowerCase (a ++ b) = jsToLowerCase a ++ jsToLowerCase b := by
  apply String.ext
  simp [jsToLowerCase, String.data_append]

theorem jsToLowerCase_dash : jsToLowerCase "-" = "-" := by decide

/-- Helper: `generateAccountId` on a record whose two key fields are set strings. -/
theorem generateAccountId_eq (a : AccountEntity) (h e : String)
    (hh : a.homeAccountId = some h) (he : a.environment = some e) :
    AccountEntity.generateAccountId a =
      jsToLowerCase (h ++ Separators.CACHE_KEY_SEPARATOR ++ e) := by
  simp [AccountEntity.generateAccountId, jsArrayJoin, jsElemToString, hh, he,
    String.append_assoc]

/-- C1: for all strings h, e, r (and any username u), `generateAccountCacheKey` on
an AccountInfo with homeAccountId h, environment e, tenantId r is the lowercase of
h, e, r joined with the cache-key separator; and when tenantId is absent (undefined)
or empty, the key is the lowercase two-component prefix followed by a trailing
separator and an empty final segment. -/
theorem accountCacheKey_lower_join_trailing_sep :
    (∀ h e r u, AccountEntity.generateAccountCacheKey ⟨some h, some e, some r, u⟩ =
      jsToLowerCase (h ++ Separators.CACHE_KEY_SEPARATOR ++ e ++
        Separators.CACHE_KEY_SEPARATOR ++ r)) ∧
    (∀ h e u,
      AccountEntity.generateAccountCacheKey ⟨some h, some e, none, u⟩ =
        jsToLowerCase (h ++ Separators.CACHE_KEY_SEPARATOR ++ e) ++
          Separators.CACHE_KEY_SEPARATOR ∧
      AccountEntity.generateAccountCacheKey ⟨some h, some e, some "", u⟩ =
        jsToLowerCase (h ++ Separators.CACHE_KEY_SEPARATOR ++ e) ++
          Separators.CACHE_KEY_SEPARATOR) := by
  constructor
  · intro h e r u
    simp [AccountEntity.generateAccountCacheKey, jsArrayJoin, jsElemToString,
      jsOrEmpty, String.append_assoc]
  · intro h e u
    constructor <;>
      simp [AccountEntity.generateAccountCacheKey, jsArrayJoin, jsElemToString,
        jsOrEmpty, Separators.CACHE_KEY_SEPARATOR, String.append_empty,
        jsToLowerCase_append, jsToLowerCase_dash, String.append_assoc]

/-- C2: `generateAccountCacheKey` reads only homeAccountId, environment and tenantId
of its AccountInfo argument, so two inputs agreeing on those three fields (whatever
their usernames) give identical keys; consequently `generateAccountKey` on two
records differing only in username gives identical keys. -/
theorem accountKey_ignores_username :
    (∀ a b : AccountInfo, a.homeAccountId = b.homeAccountId →
      a.environment = b.environment → a.tenantId = b.tenantId →
      AccountEntity.generateAccountCacheKey a = AccountEntity.generateAccountCacheKey b) ∧
    (∀ x y : AccountEntity, x.homeAccountId = y.homeAccountId →
      x.environment = y.environment → x.realm = y.realm →
      AccountEntity.generateAccountKey x = AccountEntity.generateAccountKey y) := by
  constructor
  · intro a b h1 h2 h3
    simp [AccountEntity.generateAccountCacheKey, h1, h2, h3]
  · intro x y h1 h2 h3
    simp [AccountEntity.generateAccountKey, AccountEntity.generateAccountCacheKey,
      h1, h2, h3]

/-- Witness for C2 at concrete inputs differing only in username. -/
theorem accountKey_ignores_username_witness :
    AccountEntity.generateAccountCacheKey ⟨some "HomeId", some "Env", some "Tid", some "alice"⟩ =
      AccountEntity.generateAccountCacheKey ⟨some "HomeId", some "Env", some "Tid", some "bob"⟩ ∧
    AccountEntity.generateAccountKey
        { homeAccountId := some "H", environment := some "E",
          realm := some "T", username := some "alice" } =
      AccountEntity.generateAccountKey
        { homeAccountId := some "H", environment := some "E",
          realm := some "T", username := some "bob" } :=
  ⟨accountKey_ignores_username.1 _ _ rfl rfl rfl,
   accountKey_ignores_username.2 _ _ rfl rfl rfl⟩

/-- C3: `generateAccountId` on a record with homeAccountId h and environment e is the
lowercase of h, separator, e; and it is case-insensitive: case variants (strings with
the same lowercasing) of h and e give the same account id. -/
theorem accountId_lowercase_case_insensitive :
    (∀ (a : AccountEntity) (h e : String), a.homeAccountId = some h →
      a.environment = some e →
      AccountEntity.generateAccountId a =
        jsToLowerCase (h ++ Separators.CACHE_KEY_SEPARATOR ++ e)) ∧
    (∀ h e H E : String, jsToLowerCase H = jsToLowerCase h →
      jsToLowerCase E = jsToLowerCase e →
      AccountEntity.generateAccountId
          { homeAccountId := some H, environment := some E } =
        AccountEntity.generateAccountId
          { homeAccountId := some h, environment := some e }) := by
  constructor
  · exact generateAccountId_eq
  · intro h e H E hH hE
    rw [generateAccountId_eq _ H E rfl rfl, generateAccountId_eq _ h e rfl rfl,
      jsToLowerCase_append, jsToLowerCase_append, jsToLowerCase_append,
      jsToLowerCase_append, hH, hE]

/-- Witness for C3 at concrete inputs: a mixed-case record, and two case variants. -/
theorem accountId_lowercase_case_insensitive_witness :
    AccountEntity.generateAccountId
        { homeAccountId := some "UserId.Home", environment := some "LOGIN.Example.COM" } =
      jsToLowerCase ("UserId.Home" ++ Separators.CACHE_KEY_SEPARATOR ++ "LOGIN.Example.COM") ∧
    AccountEntity.generateAccountId
        { homeAccountId := some "ABC", environment := some "Env" } =
      AccountEntity.generateAccountId
        { homeAccountId := some "abc", environment := some "eNV" } :=
  ⟨accountId_lowercase_case_insensitive.1 _ _ _ rfl rfl,
   accountId_lowercase_case_insensitive.2 "abc" "eNV" "ABC" "Env"
     (by decide) (by decide)⟩

theorem append_mid_ne_empty (a m b : String) (hm : m ≠ "") : a ++ m ++ b ≠ "" := by
  intro hc
  apply hm
  apply String.ext
  have hd := congrArg String.data hc
  simp [String.data_append] at hd
  simp [hd.2.1]

theorem isEmpty_false_iff (x : Option String) :
    StringUtils.isEmpty x = false ↔ optNonEmpty x := by
  simp [StringUtils.isEmpty, optNonEmpty]

/-- Helper: the record returned by a `createAccount` call whose client-info decode
succeeds and whose idToken is present. -/
theorem createAccount_ok (ci : String) (auth : Authority) (t : IdToken) (policy : JSVal)
    (bci : String → Except String ClientInfo) (c : ClientInfo)
    (hb : bci ci = Except.ok c) :
    AccountEntity.createAccount ci auth (some t) policy bci = Except.ok {
      authorityType := some CacheAccountType.MSSTS_ACCOUNT_TYPE,
      clientInfo := some ci,
      homeAccountId := some (if policy ≠ JSVal.null
        then c.uid ++ Separators.CLIENT_INFO_SEPARATOR ++ c.utid ++
          Separators.CACHE_KEY_SEPARATOR ++ jsValToString policy
        else c.uid ++ Separators.CLIENT_INFO_SEPARATOR ++ c.utid),
      environment := some (if EnvironmentAliases.contains
          auth.canonicalAuthorityUrlComponents.HostNameAndPort
        then PreferredCacheEnvironment
        else auth.canonicalAuthorityUrlComponents.HostNameAndPort),
      realm := t.claims.tid,
      localAccountId := if !(StringUtils.isEmpty t.claims.oid) then t.claims.oid
        else t.claims.sid,
      username := t.claims.preferred_username,
      name := t.claims.name } := by
  unfold AccountEntity.createAccount
  rw [hb]

/-- C4 counterexample: `createADFSAccount` copies the token's sub claim into
homeAccountId with no validation, so a token whose sub claim is the empty string
yields a constructed record with an empty homeAccountId. -/
theorem adfs_empty_homeAccountId_counterexample :
    ¬ optNonEmpty (AccountEntity.createADFSAccount ⟨⟨"login.windows.net"⟩⟩
      ⟨{ sub := some "" }⟩).homeAccountId := by decide

/-- C4 (amended): `createAccount` always yields a non-empty homeAccountId (it
contains the client-info separator) and a non-empty environment whenever the
authority host is non-empty, and its realm is non-empty whenever the token's tid
claim is; `createADFSAccount` yields a non-empty homeAccountId whenever the token's
sub claim is non-empty, a non-empty environment whenever the authority host is
non-empty, and leaves realm unset (ADFS accounts are not tenant-scoped). -/
theorem constructed_accounts_nonempty_key_fields :
    (∀ ci (auth : Authority) (t : IdToken) (policy : JSVal)
        (bci : String → Except String ClientInfo) (c : ClientInfo),
      bci ci = Except.ok c →
      auth.canonicalAuthorityUrlComponents.HostNameAndPort ≠ "" →
      ∃ acc, AccountEntity.createAccount ci auth (some t) policy bci = Except.ok acc ∧
        optNonEmpty acc.homeAccountId ∧ optNonEmpty acc.environment ∧
        (optNonEmpty t.claims.tid → optNonEmpty acc.realm)) ∧
    (∀ (auth : Authority) (t : IdToken),
      optNonEmpty t.claims.sub →
      auth.canonicalAuthorityUrlComponents.HostNameAndPort ≠ "" →
      optNonEmpty (AccountEntity.createADFSAccount auth t).homeAccountId ∧
      optNonEmpty (AccountEntity.createADFSAccount auth t).environment ∧
      (AccountEntity.createADFSAccount auth t).realm = none) := by
  constructor
  · intro ci auth t policy bci c hb hhost
    rw [createAccount_ok ci auth t policy bci c hb]
    refine ⟨_, rfl, ?_, ?_, ?_⟩
    · simp only [optNonEmpty, Option.getD_some]
      split
      · exact append_mid_ne_empty _ _ _ (by decide)
      · exact append_mid_ne_empty _ _ _ (by decide)
    · simp only [optNonEmpty, Option.getD_some]
      split
      · decide
      · exact hhost
    · exact fun h => h
  · intro auth t hsub hhost
    refine ⟨hsub, ?_, rfl⟩
    simpa [AccountEntity.createADFSAccount, optNonEmpty] using hhost

/-- Witness for the amended C4 at concrete inputs for both factory functions. -/
theorem constructed_accounts_nonempty_key_fields_witness :
    (∃ acc, AccountEntity.createAccount "blob" ⟨⟨"contoso.example.net"⟩⟩
        (some ⟨{ tid := some "tid1" }⟩) JSVal.null
        (fun _ => Except.ok ⟨"uid1", "utid1"⟩) = Except.ok acc ∧
      optNonEmpty acc.homeAccountId ∧ optNonEmpty acc.environment ∧
      (optNonEmpty (IdToken.mk { tid := some "tid1" }).claims.tid →
        optNonEmpty acc.realm)) ∧
    (optNonEmpty (AccountEntity.createADFSAccount ⟨⟨"adfs.contoso.com"⟩⟩
        ⟨{ sub := some "subject1" }⟩).homeAccountId ∧
      optNonEmpty (AccountEntity.createADFSAccount ⟨⟨"adfs.contoso.com"⟩⟩
        ⟨{ sub := some "subject1" }⟩).environment ∧
      (AccountEntity.createADFSAccount ⟨⟨"adfs.contoso.com"⟩⟩
        ⟨{ sub := some "subject1" }⟩).realm = none) :=
  ⟨constructed_accounts_nonempty_key_fields.1 "blob" ⟨⟨"contoso.example.net"⟩⟩
      ⟨{ tid := some "tid1" }⟩ JSVal.null (fun _ => Except.ok ⟨"uid1", "utid1"⟩)
      ⟨"uid1", "utid1"⟩ rfl (by decide),
   constructed_accounts_nonempty_key_fields.2 ⟨⟨"adfs.contoso.com"⟩⟩
      ⟨{ sub := some "subject1" }⟩ (by decide) (by decide)⟩

/-- C5 (code bug): `createAccount` reads `idToken.claims.tid` (line 151) before the
`if (idToken)` guard (line 153), so a call with a missing idToken fails with a
TypeError instead of succeeding with localAccountId, username and name unset. -/
theorem createAccount_missing_idToken_fails :
    AccountEntity.createAccount "rawClientInfo" ⟨⟨"login.microsoftonline.com"⟩⟩ none
        JSVal.null (fun _ => Except.ok ⟨"uid", "utid"⟩) =
      Except.error "TypeError: cannot read claims of null idToken" := rfl

/-- C6: alias normalization is applied only on the modern-authority path: when the
authority host is in the Environment Alias Set, `createAccount` sets environment to
the preferred cache host, while `createADFSAccount` always sets environment to the
authority host unchanged. -/
theorem environment_alias_normalization_asymmetry :
    (∀ ci (auth : Authority) (t : IdToken) (policy : JSVal)
        (bci : String → Except String ClientInfo) (c : ClientInfo),
      bci ci = Except.ok c →
      EnvironmentAliases.contains
          auth.canonicalAuthorityUrlComponents.HostNameAndPort = true →
      ∃ acc, AccountEntity.createAccount ci auth (some t) policy bci = Except.ok acc ∧
        acc.environment = some PreferredCacheEnvironment) ∧
    (∀ (auth : Authority) (t : IdToken),
      (AccountEntity.createADFSAccount auth t).environment =
        some auth.canonicalAuthorityUrlComponents.HostNameAndPort) := by
  constructor
  · intro ci auth t policy bci c hb halias
    rw [createAccount_ok ci auth t policy bci c hb]
    refine ⟨_, rfl, ?_⟩
    have hm : auth.canonicalAuthorityUrlComponents.HostNameAndPort ∈
        EnvironmentAliases := by simpa using halias
    simp [hm]
  · intro auth t
    rfl

/-- Witness for C6 at the aliased host "login.windows.net": the modern path rewrites
it to "login.microsoftonline.com", the federation path keeps it unchanged. -/
theorem environment_alias_normalization_asymmetry_witness :
    (∃ acc, AccountEntity.createAccount "blob" ⟨⟨"login.windows.net"⟩⟩ (some ⟨{}⟩)
        JSVal.null (fun _ => Except.ok ⟨"u", "t"⟩) = Except.ok acc ∧
      acc.environment = some PreferredCacheEnvironment) ∧
    (AccountEntity.createADFSAccount ⟨⟨"login.windows.net"⟩⟩ ⟨{}⟩).environment =
      some "login.windows.net" :=
  ⟨environment_alias_normalization_asymmetry.1 "blob" ⟨⟨"login.windows.net"⟩⟩ ⟨{}⟩
      JSVal.null (fun _ => Except.ok ⟨"u", "t"⟩) ⟨"u", "t"⟩ rfl (by decide),
   environment_alias_normalization_asymmetry.2 ⟨⟨"login.windows.net"⟩⟩ ⟨{}⟩⟩

/-- C7: for every uid and utid decoded from the client-info blob, `createAccount`
with a null policy sets homeAccountId to uid, client-info separator, utid with no
trailing policy segment, and with a string policy p appends the cache-key separator
and p. -/
theorem createAccount_policy_suffix :
    ∀ ci (auth : Authority) (t : IdToken) (bci : String → Except String ClientInfo)
      (uid utid : String), bci ci = Except.ok ⟨uid, utid⟩ →
      (∃ acc, AccountEntity.createAccount ci auth (some t) JSVal.null bci =
          Except.ok acc ∧
        acc.homeAccountId = some (uid ++ Separators.CLIENT_INFO_SEPARATOR ++ utid)) ∧
      (∀ p, ∃ acc, AccountEntity.createAccount ci auth (some t) (JSVal.str p) bci =
          Except.ok acc ∧
        acc.homeAccountId = some (uid ++ Separators.CLIENT_INFO_SEPARATOR ++ utid ++
          Separators.CACHE_KEY_SEPARATOR ++ p)) := by
  intro ci auth t bci uid utid hb
  constructor
  · rw [createAccount_ok ci auth t JSVal.null bci ⟨uid, utid⟩ hb]
    exact ⟨_, rfl, by simp⟩
  · intro p
    rw [createAccount_ok ci auth t (JSVal.str p) bci ⟨uid, utid⟩ hb]
    exact ⟨_, rfl, by simp [jsValToString]⟩

/-- Witness for C7 with uid "u1", utid "t1" and policy "P1". -/
theorem createAccount_policy_suffix_witness :
    (∃ acc, AccountEntity.createAccount "blob" ⟨⟨"host.example.com"⟩⟩ (some ⟨{}⟩)
        JSVal.null (fun _ => Except.ok ⟨"u1", "t1"⟩) = Except.ok acc ∧
      acc.homeAccountId = some ("u1" ++ Separators.CLIENT_INFO_SEPARATOR ++ "t1")) ∧
    (∃ acc, AccountEntity.createAccount "blob" ⟨⟨"host.example.com"⟩⟩ (some ⟨{}⟩)
        (JSVal.str "P1") (fun _ => Except.ok ⟨"u1", "t1"⟩) = Except.ok acc ∧
      acc.homeAccountId = some ("u1" ++ Separators.CLIENT_INFO_SEPARATOR ++ "t1" ++
        Separators.CACHE_KEY_SEPARATOR ++ "P1")) :=
  ⟨(createAccount_policy_suffix "blob" ⟨⟨"host.example.com"⟩⟩ ⟨{}⟩
      (fun _ => Except.ok ⟨"u1", "t1"⟩) "u1" "t1" rfl).1,
   (createAccount_policy_suffix "blob" ⟨⟨"host.example.com"⟩⟩ ⟨{}⟩
      (fun _ => Except.ok ⟨"u1", "t1"⟩) "u1" "t1" rfl).2 "P1"⟩

/-- C8: for every decoded identity token passed to `createAccount`, the constructed
record's localAccountId is the token's oid claim when that claim is non-empty, and
otherwise the token's sid claim. -/
theorem createAccount_localAccountId_fallback :
    ∀ ci (auth : Authority) (t : IdToken) (policy : JSVal)
      (bci : String → Except String ClientInfo) (c : ClientInfo),
      bci ci = Except.ok c →
      ∃ acc, AccountEntity.createAccount ci auth (some t) policy bci = Except.ok acc ∧
        (optNonEmpty t.claims.oid → acc.localAccountId = t.claims.oid) ∧
        (¬ optNonEmpty t.claims.oid → acc.localAccountId = t.claims.sid) := by
  intro ci auth t policy bci c hb
  rw [createAccount_ok ci auth t policy bci c hb]
  refine ⟨_, rfl, ?_, ?_⟩
  · intro h
    have hf : StringUtils.isEmpty t.claims.oid = false := (isEmpty_false_iff _).mpr h
    simp [hf]
  · intro h
    have ht : StringUtils.isEmpty t.claims.oid = true := by
      rcases Bool.eq_false_or_eq_true (StringUtils.isEmpty t.claims.oid) with ht | hf
      · exact ht
      · exact absurd ((isEmpty_false_iff _).mp hf) h
    simp [ht]

/-- Witness for C8: a token with an empty oid claim and sid claim "sid123" yields
localAccountId "sid123". -/
theorem createAccount_localAccountId_fallback_witness :
    ∃ acc, AccountEntity.createAccount "blob" ⟨⟨"host.example.com"⟩⟩
        (some ⟨{ oid := some "", sid := some "sid123" }⟩) JSVal.null
        (fun _ => Except.ok ⟨"u", "t"⟩) = Except.ok acc ∧
      acc.localAccountId = some "sid123" := by
  obtain ⟨acc, h1, _, h3⟩ := createAccount_localAccountId_fallback "blob"
    ⟨⟨"host.example.com"⟩⟩ ⟨{ oid := some "", sid := some "sid123" }⟩ JSVal.null
    (fun _ => Except.ok ⟨"u", "t"⟩) ⟨"u", "t"⟩ rfl
  exact ⟨acc, h1, h3 (by decide)⟩

/-- C9: `generateType` is total: each of the four recognized authority-type tags
maps to its own distinct cache-type number with no diagnostic, and any other
authorityType value (including undefined) yields the null result together with the
"Unexpected account type" diagnostic, never a failure. -/
theorem generateType_total_classification :
    (∀ a : AccountEntity, a.authorityType = some CacheAccountType.ADFS_ACCOUNT_TYPE →
      AccountEntity.generateType a = (some CacheType.ADFS, [])) ∧
    (∀ a : AccountEntity, a.authorityType = some CacheAccountType.MSAV1_ACCOUNT_TYPE →
      AccountEntity.generateType a = (some CacheType.MSA, [])) ∧
    (∀ a : AccountEntity, a.authorityType = some CacheAccountType.MSSTS_ACCOUNT_TYPE →
      AccountEntity.generateType a = (some CacheType.MSSTS, [])) ∧
    (∀ a : AccountEntity, a.authorityType = some CacheAccountType.GENERIC_ACCOUNT_TYPE →
      AccountEntity.generateType a = (some CacheType.GENERIC, [])) ∧
    [CacheType.ADFS, CacheType.MSA, CacheType.MSSTS, CacheType.GENERIC].Nodup ∧
    (∀ a : AccountEntity,
      a.authorityType ≠ some CacheAccountType.ADFS_ACCOUNT_TYPE →
      a.authorityType ≠ some CacheAccountType.MSAV1_ACCOUNT_TYPE →
      a.authorityType ≠ some CacheAccountType.MSSTS_ACCOUNT_TYPE →
      a.authorityType ≠ some CacheAccountType.GENERIC_ACCOUNT_TYPE →
      AccountEntity.generateType a = (none, ["Unexpected account type"])) := by
  refine ⟨?_, ?_, ?_, ?_, by decide, ?_⟩
  · intro a h
    simp [AccountEntity.generateType, h]
  · intro a h
    simp [AccountEntity.generateType, h, CacheAccountType.MSAV1_ACCOUNT_TYPE,
      CacheAccountType.ADFS_ACCOUNT_TYPE]
  · intro a h
    simp [AccountEntity.generateType, h, CacheAccountType.MSSTS_ACCOUNT_TYPE,
      CacheAccountType.ADFS_ACCOUNT_TYPE, CacheAccountType.MSAV1_ACCOUNT_TYPE]
  · intro a h
    simp [AccountEntity.generateType, h, CacheAccountType.GENERIC_ACCOUNT_TYPE,
      CacheAccountType.ADFS_ACCOUNT_TYPE, CacheAccountType.MSAV1_ACCOUNT_TYPE,
      CacheAccountType.MSSTS_ACCOUNT_TYPE]
  · intro a h1 h2 h3 h4
    simp [AccountEntity.generateType, h1, h2, h3, h4]

/-- Witness for C9: a recognized tag is classified with no diagnostic; an
unrecognized tag yields the null result plus the diagnostic message. -/
theorem generateType_total_classification_witness :
    AccountEntity.generateType
        { authorityType := some CacheAccountType.ADFS_ACCOUNT_TYPE } =
      (some CacheType.ADFS, []) ∧
    AccountEntity.generateType { authorityType := some "Bogus" } =
      (none, ["Unexpected account type"]) :=
  ⟨generateType_total_classification.1 _ rfl,
   generateType_total_classification.2.2.2.2.2 { authorityType := some "Bogus" }
     (by decide) (by decide) (by decide) (by decide)⟩

/-- C10: the guard tests only `policy !== null`, so an undefined policy still takes
the suffixing branch and JavaScript string concatenation renders it as the literal
text "undefined": homeAccountId becomes uid, client-info separator, utid, cache-key
separator, "undefined". -/
theorem createAccount_undefined_policy_literal :
    ∀ ci (auth : Authority) (t : IdToken) (bci : String → Except String ClientInfo)
      (uid utid : String), bci ci = Except.ok ⟨uid, utid⟩ →
      ∃ acc, AccountEntity.createAccount ci auth (some t) JSVal.undefined bci =
          Except.ok acc ∧
        acc.homeAccountId = some (uid ++ Separators.CLIENT_INFO_SEPARATOR ++ utid ++
          Separators.CACHE_KEY_SEPARATOR ++ "undefined") := by
  intro ci auth t bci uid utid hb
  rw [createAccount_ok ci auth t JSVal.undefined bci ⟨uid, utid⟩ hb]
  exact ⟨_, rfl, by simp [jsValToString]⟩

/-- Witness for C10 with uid "u1" and utid "t1". -/
theorem createAccount_undefined_policy_literal_witness :
    ∃ acc, AccountEntity.createAccount "blob" ⟨⟨"host.example.com"⟩⟩ (some ⟨{}⟩)
        JSVal.undefined (fun _ => Except.ok ⟨"u1", "t1"⟩) = Except.ok acc ∧
      acc.homeAccountId = some ("u1" ++ Separators.CLIENT_INFO_SEPARATOR ++ "t1" ++
        Separators.CACHE_KEY_SEPARATOR ++ "undefined") :=
  createAccount_undefined_policy_literal "blob" ⟨⟨"host.example.com"⟩⟩ ⟨{}⟩
    (fun _ => Except.ok ⟨"u1", "t1"⟩) "u1" "t1" rfl
